import Mathlib

/-!
Verification of the event-gateway ingestion core of
`distributed-event-processor` against its natural-language specification.

The Go source is shallowly embedded: pure helpers become Lean functions,
handlers become functions threading an explicit log of attempted broker
sends, nondeterministic inputs of the environment (generated UUIDs, the
current time, the broker client's answers, the serializer, context
cancellation, per-iteration stream events) become explicit parameters.
Times are modelled as natural numbers, JSON documents as association
lists of strings (only presence/absence and opacity matter to the
properties proved here).
-/

namespace EventGateway

/-- `models.Event` (src/services/event-gateway/internal/models/event.go:10-23).
`Data` is `map[string]interface{}` in Go; a `none` value models a nil map,
`some kvs` a non-nil document. -/
structure Event where
  id : String
  type : String
  source : String
  subject : String
  tenantId : String
  data : Option (List (String × String))
  timestamp : Nat
  version : String
  schemaVersion : String
  metadata : Option (List (String × String))
  correlationId : String
  priority : Int
deriving DecidableEq, Repr

/-- `pb.Event`, the protobuf event used by the gRPC surface
(fields per `protoToModel`, src/unnamed/part_006:417-443). `timestamp = none`
models a nil `*timestamppb.Timestamp`; `data = none` a nil `*structpb.Struct`. -/
structure PbEvent where
  id : String
  type : String
  source : String
  tenantId : String
  data : Option (List (String × String))
  timestamp : Option Nat
  schemaVersion : String
  metadata : List (String × String)
  correlationId : String
  priority : Int
deriving DecidableEq, Repr

/-- `validateEvent` (src/unnamed/part_006:397-415): a nil event, an empty
type, an empty source, or a nil data document is rejected with the
corresponding message; otherwise the event is accepted (`none` = no error). -/
def validateEvent : Option PbEvent → Option String
  | none => some "event cannot be nil"
  | some e =>
    if e.type = "" then some "event type is required"
    else if e.source = "" then some "event source is required"
    else if e.data = none then some "event data is required"
    else none

/-- `protoToModel` (src/unnamed/part_006:417-443): converts a protobuf event
to the internal model, defaulting a nil timestamp to the current time and a
nil data document to an empty (non-nil) one. -/
def protoToModel (now : Nat) (e : PbEvent) : Event :=
  { id := e.id
    type := e.type
    source := e.source
    subject := ""
    tenantId := e.tenantId
    data := some (e.data.getD [])
    timestamp := e.timestamp.getD now
    version := ""
    schemaVersion := e.schemaVersion
    metadata := some e.metadata
    correlationId := e.correlationId
    priority := e.priority }

/-- `models.EventRequest` (src/services/event-gateway/internal/models/event.go:26-33):
the caller-supplied subset of event fields on the HTTP surface. -/
structure EventRequest where
  type : String
  source : String
  subject : String
  data : Option (List (String × String))
  version : String
  metadata : Option (List (String × String))
deriving DecidableEq, Repr

/-- `EventRequest.ToEvent` (src/services/event-gateway/internal/models/event.go:36-47):
generates an identifier (`uuid.New()`, modelled as the `genId` parameter) and
stamps the current UTC time (`now`). -/
def EventRequest.toEvent (genId : String) (now : Nat) (r : EventRequest) : Event :=
  { id := genId
    type := r.type
    source := r.source
    subject := r.subject
    tenantId := ""
    data := r.data
    timestamp := now
    version := r.version
    schemaVersion := ""
    metadata := r.metadata
    correlationId := ""
    priority := 0 }

/-- The `go-playground/validator` check of `EventRequest`'s `required` tags
(Type, Source, Data; src/services/event-gateway/internal/models/event.go:27-30),
reported through `formatValidationErrors`
(src/services/event-gateway/internal/api/http/handlers/event_handler.go:260-272),
which surfaces the first failing field. `required` on a string fails on the
empty string and on a map fails only on a nil map. -/
def structValidateEventRequest (r : EventRequest) : Option String :=
  if r.type = "" then some "Field 'Type' failed validation: required"
  else if r.source = "" then some "Field 'Source' failed validation: required"
  else if r.data = none then some "Field 'Data' failed validation: required"
  else none

/-- A Kafka record header (`sarama.RecordHeader`). -/
structure RecordHeader where
  key : String
  value : String
deriving DecidableEq, Repr

/-- `sarama.ProducerMessage` as built by `ProduceEvent`
(src/services/event-gateway/internal/kafka/producer.go:60-79). -/
structure ProducerMessage where
  topic : String
  key : String
  value : String
  headers : List RecordHeader
  timestamp : Nat
deriving DecidableEq, Repr

/-- The message `ProduceEvent` constructs for an event
(src/services/event-gateway/internal/kafka/producer.go:60-79): key is the
event's type, headers are exactly event_id/event_type/source, timestamp is
the event's own timestamp, value is the serialized event. -/
def mkProducerMessage (topic : String) (event : Event) (eventData : String) :
    ProducerMessage :=
  { topic := topic
    key := event.type
    value := eventData
    headers :=
      [ { key := "event_id", value := event.id }
      , { key := "event_type", value := event.type }
      , { key := "source", value := event.source } ]
    timestamp := event.timestamp }

/-- Placement assigned by the log: the `(partition, offset)` pair returned
by `sarama.SyncProducer.SendMessage`. -/
structure SendResult where
  partition : Int
  offset : Int
deriving DecidableEq, Repr

/-- The broker client (`sarama.SyncProducer.SendMessage`): answers a
placement, or `none` for a send error. A value of this type is one fixed
environment behaviour for a run. -/
def Client : Type := ProducerMessage → Option SendResult

/-- The serializer (`json.Marshal`): `none` models a marshal error. -/
def Serializer : Type := Event → Option String

/-- The distinct error classes `ProduceEvent` can surface
(src/services/event-gateway/internal/kafka/producer.go:45-97):
`ctx.Err()` on pre-send cancellation, a marshal failure, or a wrapped
broker send failure. -/
inductive ProduceError where
  | cancelled
  | serializeFailed
  | sendFailed
deriving DecidableEq, Repr

/-- Outcome of one `ProduceEvent` call: the returned value and the list of
network send attempts it made (empty or a single message). -/
structure ProduceOutcome where
  result : Except ProduceError SendResult
  sends : List ProducerMessage
deriving Repr

/-- `Producer.ProduceEvent` (src/services/event-gateway/internal/kafka/producer.go:45-97):
checks the caller's context before anything else and returns `ctx.Err()`
without any network attempt if already cancelled; otherwise serializes,
builds the message, and sends it, surfacing the placement or the error. -/
def ProduceEvent (serialize : Serializer) (client : Client) (topic : String)
    (ctxCancelled : Bool) (event : Event) : ProduceOutcome :=
  if ctxCancelled then { result := .error .cancelled, sends := [] }
  else
    match serialize event with
    | none => { result := .error .serializeFailed, sends := [] }
    | some eventData =>
      let msg := mkProducerMessage topic event eventData
      match client msg with
      | none => { result := .error .sendFailed, sends := [msg] }
      | some r => { result := .ok r, sends := [msg] }

/-- `Producer.SendEvent` (src/services/event-gateway/internal/kafka/producer.go:99-102):
calls `ProduceEvent` with `context.Background()` — a context that is never
cancelled — and discards the placement, keeping only the error. -/
def SendEvent (serialize : Serializer) (client : Client) (topic : String)
    (event : Event) : Option ProduceError × List ProducerMessage :=
  let o := ProduceEvent serialize client topic false event
  (match o.result with
   | .error e => some e
   | .ok _ => none, o.sends)

/-- `Producer.SendBatchEvents` (src/services/event-gateway/internal/kafka/producer.go:104-111):
sequentially sends each event via `SendEvent` and returns the first error,
abandoning the remaining events. -/
def SendBatchEvents (serialize : Serializer) (client : Client) (topic : String) :
    List Event → Option ProduceError × List ProducerMessage
  | [] => (none, [])
  | e :: rest =>
    match SendEvent serialize client topic e with
    | (some err, msgs) => (some err, msgs)
    | (none, msgs) =>
      let (r, more) := SendBatchEvents serialize client topic rest
      (r, msgs ++ more)

/-- gRPC status codes used by the handlers. -/
inductive GrpcCode where
  | invalidArgument
  | internal
deriving DecidableEq, Repr

/-- A gRPC error (`status.Error(code, msg)`). -/
structure GrpcStatus where
  code : GrpcCode
  message : String
deriving DecidableEq, Repr

/-- `pb.IngestionStatus`. -/
inductive IngestionStatus where
  | accepted
  | rejected
  | failed
deriving DecidableEq, Repr

/-- `pb.IngestEventResponse`: the per-event ingest answer on the gRPC
surface, carrying the placement fields. `acceptedAt = none` models a nil
timestamp. -/
structure IngestEventResponse where
  eventId : String
  requestId : String
  acceptedAt : Option Nat
  partition : Int
  offset : Int
  status : IngestionStatus
  errorMessage : String
deriving DecidableEq, Repr

/-- The id/timestamp filling shared by the gRPC handlers
(src/unnamed/part_006:56-63, 136-144, 368-376): generate an identifier when
absent, stamp the current time when absent. -/
def grpcFillEvent (genId : String) (now : Nat) (e : PbEvent) : PbEvent :=
  { e with id := if e.id = "" then genId else e.id
           timestamp := some (e.timestamp.getD now) }

/-- `EventHandler.IngestEvent`, gRPC (src/unnamed/part_006:36-93):
validate, fill in a generated id and the current time where absent, convert,
produce, and answer with placement plus event id, or a gRPC error. `genId`
models `uuid.New().String()`, `now` the current time, `ctxCancelled` the
state of the caller's RPC context at produce time. -/
def grpcIngestEvent (serialize : Serializer) (client : Client) (topic : String)
    (requestId genId : String) (now : Nat) (ctxCancelled : Bool) (e : PbEvent) :
    Except GrpcStatus IngestEventResponse × List ProducerMessage :=
  match validateEvent (some e) with
  | some err => (.error { code := .invalidArgument, message := err }, [])
  | none =>
    let e' := grpcFillEvent genId now e
    match (ProduceEvent serialize client topic ctxCancelled
        (protoToModel now e')).result with
    | .error _ =>
      (.error { code := .internal, message := "failed to process event" },
       (ProduceEvent serialize client topic ctxCancelled (protoToModel now e')).sends)
    | .ok r =>
      (.ok { eventId := e'.id
             requestId := requestId
             acceptedAt := some now
             partition := r.partition
             offset := r.offset
             status := .accepted
             errorMessage := "" },
       (ProduceEvent serialize client topic ctxCancelled (protoToModel now e')).sends)

/-- `models.EventResponse` (src/services/event-gateway/internal/models/event.go:50-55):
the HTTP success payload — event id, status, timestamp, message. It has no
partition or offset field. -/
structure EventResponse where
  eventId : String
  status : String
  timestamp : Nat
  message : String
deriving DecidableEq, Repr

/-- Outcome of the HTTP single-ingest handler, by response class. -/
inductive HttpSingleResult where
  | badRequest (error message details : String)
  | serverError (error message eventId : String)
  | accepted (resp : EventResponse)
deriving DecidableEq, Repr

/-- The request-metadata stamping in the HTTP handlers
(src/services/event-gateway/internal/api/http/handlers/event_handler.go:64-70):
request id, caller network address, caller agent are added to the event's
metadata map (created if nil). -/
def addRequestMetadata (requestId clientIP userAgent : String) (ev : Event) : Event :=
  { ev with metadata := some ((ev.metadata.getD []) ++
      [("request_id", requestId), ("client_ip", clientIP), ("user_agent", userAgent)]) }

/-- `EventHandler.IngestEvent`, HTTP
(src/services/event-gateway/internal/api/http/handlers/event_handler.go:28-104):
bind JSON (`body = none` models a malformed document), validate the struct
tags, convert and stamp metadata, then call `SendEvent`. `callerCancelled`
models the state of the request's context (which the `Timeout` middleware
can cancel); the handler never consults it — `SendEvent` runs the producer
under `context.Background()` (producer.go:99-102). -/
def httpIngestEvent (serialize : Serializer) (client : Client) (topic : String)
    (requestId clientIP userAgent genId : String) (now : Nat)
    (callerCancelled : Bool) (body : Option EventRequest) :
    HttpSingleResult × List ProducerMessage :=
  match body with
  | none => (.badRequest "invalid_json" "Invalid JSON format" "bind error", [])
  | some req =>
    match structValidateEventRequest req with
    | some details =>
      (.badRequest "validation_failed" "Event validation failed" details, [])
    | none =>
      let event := addRequestMetadata requestId clientIP userAgent
        (req.toEvent genId now)
      match SendEvent serialize client topic event with
      | (some _, msgs) =>
        (.serverError "ingestion_failed" "Failed to ingest event" event.id, msgs)
      | (none, msgs) =>
        (.accepted { eventId := event.id
                     status := "accepted"
                     timestamp := event.timestamp
                     message := "Event ingested successfully" }, msgs)

/-- Accumulated state of the gRPC batch loop
(src/unnamed/part_006:109-177): ordered per-element results, success and
failure counters, and the broker sends attempted. -/
structure BatchAcc where
  results : List IngestEventResponse
  successCount : Nat
  failureCount : Nat
  sends : List ProducerMessage
deriving Repr

/-- The per-element loop of `EventHandler.IngestEventBatch`, gRPC
(src/unnamed/part_006:113-177), starting at absolute index `i` (used to
draw per-element generated ids from `genId`): validate — on failure append
a rejected result and, under fail-fast, break; otherwise fill id/timestamp,
produce — on failure append a failed result and, under fail-fast, break;
on success append an accepted result carrying the placement. -/
def grpcBatchStep (serialize : Serializer) (client : Client)
    (topic requestId : String) (genId : Nat → String) (now : Nat)
    (ctxCancelled failFast : Bool) : Nat → List PbEvent → BatchAcc
  | _, [] => ⟨[], 0, 0, []⟩
  | i, e :: rest =>
    match validateEvent (some e) with
    | some err =>
      let r : IngestEventResponse :=
        { eventId := e.id, requestId := requestId, acceptedAt := none
          partition := 0, offset := 0, status := .rejected, errorMessage := err }
      if failFast then ⟨[r], 0, 1, []⟩
      else
        let acc := grpcBatchStep serialize client topic requestId genId now
          ctxCancelled failFast (i + 1) rest
        ⟨r :: acc.results, acc.successCount, acc.failureCount + 1, acc.sends⟩
    | none =>
      let e' := grpcFillEvent (genId i) now e
      let o := ProduceEvent serialize client topic ctxCancelled (protoToModel now e')
      match o.result with
      | .error _ =>
        let r : IngestEventResponse :=
          { eventId := e'.id, requestId := requestId, acceptedAt := none
            partition := 0, offset := 0, status := .failed
            errorMessage := "failed to produce to Kafka" }
        if failFast then ⟨[r], 0, 1, o.sends⟩
        else
          let acc := grpcBatchStep serialize client topic requestId genId now
            ctxCancelled failFast (i + 1) rest
          ⟨r :: acc.results, acc.successCount, acc.failureCount + 1,
           o.sends ++ acc.sends⟩
      | .ok pr =>
        let r : IngestEventResponse :=
          { eventId := e'.id, requestId := requestId, acceptedAt := some now
            partition := pr.partition, offset := pr.offset, status := .accepted
            errorMessage := "" }
        let acc := grpcBatchStep serialize client topic requestId genId now
          ctxCancelled failFast (i + 1) rest
        ⟨r :: acc.results, acc.successCount + 1, acc.failureCount,
         o.sends ++ acc.sends⟩

/-- `pb.IngestEventBatchResponse` (the fields the claims concern). -/
structure GrpcBatchResponse where
  results : List IngestEventResponse
  successCount : Nat
  failureCount : Nat
  requestId : String
deriving Repr

/-- `EventHandler.IngestEventBatch`, gRPC (src/unnamed/part_006:96-195):
reject an empty batch, otherwise run the per-element loop and answer with
the results and counters. -/
def grpcIngestEventBatch (serialize : Serializer) (client : Client)
    (topic requestId : String) (genId : Nat → String) (now : Nat)
    (ctxCancelled failFast : Bool) (events : List PbEvent) :
    Except GrpcStatus GrpcBatchResponse × List ProducerMessage :=
  if events.isEmpty then
    (.error { code := .invalidArgument, message := "batch cannot be empty" }, [])
  else
    let acc := grpcBatchStep serialize client topic requestId genId now
      ctxCancelled failFast 0 events
    (.ok { results := acc.results, successCount := acc.successCount
           failureCount := acc.failureCount, requestId := requestId },
     acc.sends)

/-- Claim-side definition: the result element `i` receives when handled on
its own — rejected on a validation violation, failed on a production error,
otherwise accepted with the assigned placement. Entry `i` of a batch result
reporting the outcome of input `i` independently of its siblings means the
result list is pointwise this function. -/
def grpcElementOutcome (serialize : Serializer) (client : Client)
    (topic requestId : String) (genId : Nat → String) (now : Nat)
    (ctxCancelled : Bool) (i : Nat) (e : PbEvent) : IngestEventResponse :=
  match validateEvent (some e) with
  | some err =>
    { eventId := e.id, requestId := requestId, acceptedAt := none
      partition := 0, offset := 0, status := .rejected, errorMessage := err }
  | none =>
    let e' := grpcFillEvent (genId i) now e
    match (ProduceEvent serialize client topic ctxCancelled
        (protoToModel now e')).result with
    | .error _ =>
      { eventId := e'.id, requestId := requestId, acceptedAt := none
        partition := 0, offset := 0, status := .failed
        errorMessage := "failed to produce to Kafka" }
    | .ok pr =>
      { eventId := e'.id, requestId := requestId, acceptedAt := some now
        partition := pr.partition, offset := pr.offset, status := .accepted
        errorMessage := "" }

/-- Claim-side definition: the independent per-element outcomes of a whole
batch, in input order, starting at index `i`. -/
def grpcElementOutcomes (serialize : Serializer) (client : Client)
    (topic requestId : String) (genId : Nat → String) (now : Nat)
    (ctxCancelled : Bool) : Nat → List PbEvent → List IngestEventResponse
  | _, [] => []
  | i, e :: rest =>
    grpcElementOutcome serialize client topic requestId genId now ctxCancelled i e ::
      grpcElementOutcomes serialize client topic requestId genId now ctxCancelled
        (i + 1) rest

/-- Claim-side definition: the per-element outcomes under fail-fast —
processing stops at (and includes) the first element whose outcome is not
accepted. -/
def grpcElementOutcomesFF (serialize : Serializer) (client : Client)
    (topic requestId : String) (genId : Nat → String) (now : Nat)
    (ctxCancelled : Bool) : Nat → List PbEvent → List IngestEventResponse
  | _, [] => []
  | i, e :: rest =>
    let r := grpcElementOutcome serialize client topic requestId genId now
      ctxCancelled i e
    if r.status = .accepted then
      r :: grpcElementOutcomesFF serialize client topic requestId genId now
        ctxCancelled (i + 1) rest
    else [r]

/-- `models.BatchEventResult` (src/services/event-gateway/internal/models/event.go:71-75). -/
structure BatchEventResult where
  eventId : String
  status : String
  error : String
deriving DecidableEq, Repr

/-- `models.BatchEventResponse` (src/services/event-gateway/internal/models/event.go:63-68). -/
structure BatchEventResponse where
  processedCount : Nat
  failedCount : Nat
  results : List BatchEventResult
  errors : List String
deriving DecidableEq, Repr

/-- Outcome of the HTTP batch handler, by response class (202, 207, 400, 500). -/
inductive HttpBatchResult where
  | badRequest (error message details : String)
  | serverError (error message : String)
  | multiStatus (resp : BatchEventResponse)
  | accepted (resp : BatchEventResponse)
deriving DecidableEq, Repr

/-- The `go-playground/validator` check of `BatchEventRequest`'s tag
`required,min=1,max=100,dive` on `Events`
(src/services/event-gateway/internal/models/event.go:59): the list must be
non-empty, at most 100 long, and `dive` validates each element against its
own field tags; `formatValidationErrors` surfaces the first violation. -/
def structValidateBatchRequest (events : List EventRequest) : Option String :=
  if events.length < 1 then some "Field 'Events' failed validation: min"
  else if events.length > 100 then some "Field 'Events' failed validation: max"
  else (events.filterMap structValidateEventRequest).head?

/-- The `batch_index` metadata tagging
(src/services/event-gateway/internal/api/http/handlers/event_handler.go:170):
`string(rune(i))`, a single character whose code point is the index. -/
def addBatchIndexMetadata (i : Nat) (ev : Event) : Event :=
  { ev with metadata := some ((ev.metadata.getD []) ++
      [("batch_index", String.singleton (Char.ofNat i))]) }

/-- Accumulated state of the HTTP batch loop
(src/services/event-gateway/internal/api/http/handlers/event_handler.go:140-178):
per-element results in input order, counters, accumulated error strings, and
the events that passed validation (to be handed to `SendBatchEvents`). -/
structure HttpBatchAcc where
  results : List BatchEventResult
  processedCount : Nat
  failedCount : Nat
  errors : List String
  events : List Event
deriving Repr

/-- The per-element loop of `EventHandler.IngestBatch`, HTTP
(src/services/event-gateway/internal/api/http/handlers/event_handler.go:147-178),
starting at absolute index `i`: re-validate each element — on failure mark
entry `i` failed; otherwise convert, stamp request metadata and the batch
index, mark entry `i` accepted with the generated id, and collect the event
for production. -/
def httpBatchStep (requestId clientIP userAgent : String) (genId : Nat → String)
    (now : Nat) : Nat → List EventRequest → HttpBatchAcc
  | _, [] => ⟨[], 0, 0, [], []⟩
  | i, r :: rest =>
    match structValidateEventRequest r with
    | some err =>
      let acc := httpBatchStep requestId clientIP userAgent genId now (i + 1) rest
      ⟨{ eventId := "", status := "failed", error := err } :: acc.results,
       acc.processedCount, acc.failedCount + 1, err :: acc.errors, acc.events⟩
    | none =>
      let ev := addBatchIndexMetadata i
        (addRequestMetadata requestId clientIP userAgent (r.toEvent (genId i) now))
      let acc := httpBatchStep requestId clientIP userAgent genId now (i + 1) rest
      ⟨{ eventId := ev.id, status := "accepted", error := "" } :: acc.results,
       acc.processedCount + 1, acc.failedCount, acc.errors, ev :: acc.events⟩

/-- `EventHandler.IngestBatch`, HTTP
(src/services/event-gateway/internal/api/http/handlers/event_handler.go:107-209):
bind JSON, validate the batch struct tags, run the per-element loop, then
hand all passing events to `SendBatchEvents` — any production error there
replaces the whole response with a batch-level 500; otherwise answer 207
when some element failed, 202 otherwise. `callerCancelled` models the
request context's state, which the handler never consults. -/
def httpIngestBatch (serialize : Serializer) (client : Client) (topic : String)
    (requestId clientIP userAgent : String) (genId : Nat → String) (now : Nat)
    (callerCancelled : Bool) (body : Option (List EventRequest)) :
    HttpBatchResult × List ProducerMessage :=
  match body with
  | none => (.badRequest "invalid_json" "Invalid JSON format" "bind error", [])
  | some events =>
    match structValidateBatchRequest events with
    | some details =>
      (.badRequest "validation_failed" "Batch validation failed" details, [])
    | none =>
      let acc := httpBatchStep requestId clientIP userAgent genId now 0 events
      match (if acc.events.isEmpty then (none, [])
             else SendBatchEvents serialize client topic acc.events) with
      | (some _, msgs) =>
        (.serverError "ingestion_failed" "Failed to ingest batch events", msgs)
      | (none, msgs) =>
        let resp : BatchEventResponse :=
          { processedCount := acc.processedCount, failedCount := acc.failedCount
            results := acc.results, errors := acc.errors }
        (if acc.failedCount > 0 then .multiStatus resp else .accepted resp, msgs)

/-- Claim-side definition: the HTTP batch result entry element `i` receives
when handled on its own. -/
def httpElementResult (genId : Nat → String) (i : Nat) (r : EventRequest) :
    BatchEventResult :=
  match structValidateEventRequest r with
  | some err => { eventId := "", status := "failed", error := err }
  | none => { eventId := genId i, status := "accepted", error := "" }

/-- Claim-side definition: the independent per-element HTTP batch results,
in input order, starting at index `i`. -/
def httpElementResults (genId : Nat → String) :
    Nat → List EventRequest → List BatchEventResult
  | _, [] => []
  | i, r :: rest =>
    httpElementResult genId i r :: httpElementResults genId (i + 1) rest

/-- Outcome of the HTTP dry-run validation handler, by response class. -/
inductive HttpValidateResult where
  | badRequest (details : String)
  | invalid (details : String)
  | valid (eventId : String) (timestamp : Nat)
deriving DecidableEq, Repr

/-- `EventHandler.ValidateEvent`, HTTP
(src/services/event-gateway/internal/api/http/handlers/event_handler.go:211-249):
bind JSON, validate the struct tags, and on success convert the request (to
obtain the identifier and timestamp that would have been assigned). The
producer is never touched. -/
def httpValidateEvent (genId : String) (now : Nat) (body : Option EventRequest) :
    HttpValidateResult :=
  match body with
  | none => .badRequest "Invalid JSON format"
  | some req =>
    match structValidateEventRequest req with
    | some details => .invalid details
    | none =>
      let event := req.toEvent genId now
      .valid event.id event.timestamp

/-- `pb.ValidationError` (src/unnamed/part_006:302-306). -/
structure PbValidationError where
  field : String
  message : String
  code : String
deriving DecidableEq, Repr

/-- `pb.ValidateEventResponse` (src/unnamed/part_006:328-332): validity
flag, violation list, and the request correlation id. It has no field for
an event identifier. -/
structure ValidateEventResponse where
  isValid : Bool
  errors : List PbValidationError
  requestId : String
deriving DecidableEq, Repr

/-- `EventHandler.ValidateEvent`, gRPC (src/unnamed/part_006:290-333):
accumulates the whole-event violation and the explicit type/source
violations; valid iff no violation. The producer is never touched and no
identifier is generated. -/
def grpcValidateEvent (requestId : String) (e : PbEvent) : ValidateEventResponse :=
  let errors :=
    (match validateEvent (some e) with
     | some msg =>
       [{ field := "event", message := msg, code := "VALIDATION_FAILED" }]
     | none => []) ++
    (if e.type = "" then
       [{ field := "type", message := "event type is required"
          code := "REQUIRED_FIELD" }]
     else []) ++
    (if e.source = "" then
       [{ field := "source", message := "event source is required"
          code := "REQUIRED_FIELD" }]
     else [])
  { isValid := errors.isEmpty, errors := errors, requestId := requestId }

/-- Claim-side helper: whether a string occurs anywhere in a gRPC
validation response (used to ask whether the would-be event identifier is
reported). -/
def validateRespMentions (r : ValidateEventResponse) (s : String) : Bool :=
  r.requestId == s ||
    r.errors.any (fun e => e.field == s || e.message == s || e.code == s)

/-- The shared token bucket of the admission controller: the number of
tokens available at this instant. -/
structure TokenBucket where
  tokens : Nat
deriving DecidableEq, Repr

/-- `rate.Limiter.Allow` as used by the `RateLimit` middleware
(src/services/event-gateway/internal/api/http/middleware/middleware.go:109-129):
non-blocking — consume one token when available, otherwise report false
without waiting. -/
def allowRequest (b : TokenBucket) : Bool × TokenBucket :=
  if b.tokens = 0 then (false, b) else (true, { tokens := b.tokens - 1 })

/-- An inbound synchronous HTTP request (the three /api/v1 operations). -/
inductive HttpRequest where
  | ingest (body : Option EventRequest)
  | ingestBatch (body : Option (List EventRequest))
  | validate (body : Option EventRequest)

/-- An HTTP response: either the middleware's 429 rejection or a handler
outcome. -/
inductive HttpResponse where
  | rateLimited (error message : String)
  | ingest (r : HttpSingleResult)
  | ingestBatch (r : HttpBatchResult)
  | validate (r : HttpValidateResult)
deriving DecidableEq, Repr

/-- The HTTP server pipeline for the synchronous operations
(src/services/event-gateway/internal/api/http/server/server.go:47-84): the
`RateLimit` middleware runs before every handler, aborting with a 429 and
reaching no handler when no token is available; otherwise the request
proceeds to its handler with one token consumed. -/
def httpServerPipeline (serialize : Serializer) (client : Client) (topic : String)
    (requestId clientIP userAgent : String) (genId : Nat → String) (now : Nat)
    (callerCancelled : Bool) (bucket : TokenBucket) (req : HttpRequest) :
    HttpResponse × TokenBucket × List ProducerMessage :=
  match allowRequest bucket with
  | (false, b) =>
    (.rateLimited "rate_limit_exceeded" "Rate limit exceeded", b, [])
  | (true, b) =>
    match req with
    | .ingest body =>
      let o := httpIngestEvent serialize client topic requestId clientIP userAgent
        (genId 0) now callerCancelled body
      (.ingest o.1, b, o.2)
    | .ingestBatch body =>
      let o := httpIngestBatch serialize client topic requestId clientIP userAgent
        genId now callerCancelled body
      (.ingestBatch o.1, b, o.2)
    | .validate body =>
      (.validate (httpValidateEvent (genId 0) now body), b, [])

/-- An inbound synchronous gRPC request (the three request/response RPCs). -/
inductive GrpcRequest where
  | ingest (e : PbEvent)
  | ingestBatch (failFast : Bool) (events : List PbEvent)
  | validate (e : PbEvent)

/-- A gRPC unary response. -/
inductive GrpcResponse where
  | ingest (r : Except GrpcStatus IngestEventResponse)
  | ingestBatch (r : Except GrpcStatus GrpcBatchResponse)
  | validate (r : ValidateEventResponse)

/-- The gRPC server pipeline for the unary RPCs
(src/services/event-gateway/internal/api/grpc/server/server.go:47-76): the
only interceptors installed are logging and panic recovery — neither
consults the admission controller's token bucket, which passes through
untouched while the request goes straight to its handler. -/
def grpcServerPipeline (serialize : Serializer) (client : Client)
    (topic requestId : String) (genId : Nat → String) (now : Nat)
    (ctxCancelled : Bool) (bucket : TokenBucket) (req : GrpcRequest) :
    GrpcResponse × TokenBucket × List ProducerMessage :=
  match req with
  | .ingest e =>
    let o := grpcIngestEvent serialize client topic requestId (genId 0) now
      ctxCancelled e
    (.ingest o.1, bucket, o.2)
  | .ingestBatch ff events =>
    let o := grpcIngestEventBatch serialize client topic requestId genId now
      ctxCancelled ff events
    (.ingestBatch o.1, bucket, o.2)
  | .validate e =>
    (.validate (grpcValidateEvent requestId e), bucket, [])

/-- The three inbound streaming message kinds
(src/unnamed/part_006:229-284): an event, a liveness ping, or an advisory
session configuration. -/
inductive StreamMsg where
  | event (e : PbEvent)
  | ping
  | config (enableCompression : Bool) (batchSize : Int)
deriving DecidableEq, Repr

/-- One iteration's environment input to the `StreamEvents` receive loop
(src/unnamed/part_006:212-286): the session context fired, `Recv` returned
end-of-stream, `Recv` failed, or a message arrived (`sendOk` tells whether
the `Send` of this iteration's response, if any, succeeds). -/
inductive LoopInput where
  | ctxDone
  | recvEOF
  | recvError
  | recvMsg (m : StreamMsg) (sendOk : Bool)
deriving DecidableEq, Repr

/-- An outbound streaming response: an acknowledgment, an error status
message, or a pong. -/
inductive StreamOut where
  | ack (r : IngestEventResponse)
  | statusErr (msg : String)
  | pong
deriving DecidableEq, Repr

/-- How a streaming session ended: context cancellation (`ctx.Err()`),
end-of-stream (`nil`), a receive transport error, a send transport error —
or `pending`, when the modelled input trace ran out with the session still
live. -/
inductive StreamTerm where
  | ctxCancelled
  | eof
  | recvFailed
  | sendFailed
  | pending
deriving DecidableEq, Repr

/-- The observable outcome of running a streaming session over an input
trace: responses sent (in order), how the loop ended, broker sends made. -/
structure StreamRunState where
  outs : List StreamOut
  term : StreamTerm
  sends : List ProducerMessage
deriving Repr

/-- The Go error strings `ProduceEvent`'s failures carry
(producer.go:49,56,87 and context.Canceled). -/
def produceErrorMessage : ProduceError → String
  | .cancelled => "context canceled"
  | .serializeFailed => "failed to serialize event"
  | .sendFailed => "failed to send event to Kafka"

/-- `EventHandler.handleStreamEvent` (src/unnamed/part_006:362-395):
validate, fill id/timestamp, produce, and answer the acknowledgment payload
or the error. -/
def handleStreamEvent (serialize : Serializer) (client : Client)
    (topic requestId genId : String) (now : Nat) (e : PbEvent) :
    Except String IngestEventResponse × List ProducerMessage :=
  match validateEvent (some e) with
  | some err => (.error err, [])
  | none =>
    let e' := grpcFillEvent genId now e
    match (ProduceEvent serialize client topic false
        (protoToModel now e')).result with
    | .error pe =>
      (.error (produceErrorMessage pe),
       (ProduceEvent serialize client topic false (protoToModel now e')).sends)
    | .ok r =>
      (.ok { eventId := e'.id, requestId := requestId, acceptedAt := some now
             partition := r.partition, offset := r.offset, status := .accepted
             errorMessage := "" },
       (ProduceEvent serialize client topic false (protoToModel now e')).sends)

/-- The `StreamEvents` receive loop (src/unnamed/part_006:212-287), run over
an input trace from iteration index `i` (indices draw per-event generated
ids): check the session context, receive, then dispatch — events are
validated/produced and acknowledged (or answered with a status message on
failure, continuing the loop); pings are answered with a pong; configuration
messages are only logged. A failed `Send` ends the session; so do context
firing, end-of-stream and receive errors. -/
def streamRun (serialize : Serializer) (client : Client)
    (topic requestId : String) (genId : Nat → String) (now : Nat) :
    Nat → List LoopInput → StreamRunState
  | _, [] => ⟨[], .pending, []⟩
  | i, inp :: rest =>
    match inp with
    | .ctxDone => ⟨[], .ctxCancelled, []⟩
    | .recvEOF => ⟨[], .eof, []⟩
    | .recvError => ⟨[], .recvFailed, []⟩
    | .recvMsg m sendOk =>
      match m with
      | .event e =>
        match handleStreamEvent serialize client topic requestId (genId i) now e with
        | (.error err, ms) =>
          if sendOk then
            let s := streamRun serialize client topic requestId genId now (i + 1) rest
            ⟨.statusErr err :: s.outs, s.term, ms ++ s.sends⟩
          else ⟨[], .sendFailed, ms⟩
        | (.ok resp, ms) =>
          if sendOk then
            let s := streamRun serialize client topic requestId genId now (i + 1) rest
            ⟨.ack resp :: s.outs, s.term, ms ++ s.sends⟩
          else ⟨[], .sendFailed, ms⟩
      | .ping =>
        if sendOk then
          let s := streamRun serialize client topic requestId genId now (i + 1) rest
          ⟨.pong :: s.outs, s.term, s.sends⟩
        else ⟨[], .sendFailed, []⟩
      | .config _ _ =>
        let s := streamRun serialize client topic requestId genId now (i + 1) rest
        ⟨s.outs, s.term, s.sends⟩

/-- An input that keeps the session alive: a received message whose
response, if any, is sent successfully. -/
def liveInput : LoopInput → Bool
  | .recvMsg _ true => true
  | _ => false

/-- Claim-side definition: the number of responses a trace should elicit —
one per event (acknowledgment or status) and one per ping, none for
configuration messages; counting stops at the first non-message input. -/
def expectedResponses : List LoopInput → Nat
  | [] => 0
  | .recvMsg (.event _) _ :: rest => expectedResponses rest + 1
  | .recvMsg .ping _ :: rest => expectedResponses rest + 1
  | .recvMsg (.config _ _) _ :: rest => expectedResponses rest
  | _ :: _ => 0

end EventGateway

namespace EventGateway

/-- If `ProduceEvent` returns a placement, the context was not cancelled,
serialization succeeded, exactly one message was sent, and the client
assigned that placement to it. -/
theorem ProduceEvent_ok_elim (serialize : Serializer) (client : Client)
    (topic : String) (cc : Bool) (ev : Event) (r : SendResult)
    (h : (ProduceEvent serialize client topic cc ev).result = .ok r) :
    cc = false ∧ ∃ d, serialize ev = some d ∧
      client (mkProducerMessage topic ev d) = some r ∧
      (ProduceEvent serialize client topic cc ev).sends =
        [mkProducerMessage topic ev d] := by
  cases cc with
  | true => simp [ProduceEvent] at h
  | false =>
    cases hser : serialize ev with
    | none => simp [ProduceEvent, hser] at h
    | some d =>
      cases hcl : client (mkProducerMessage topic ev d) with
      | none => simp [ProduceEvent, hser, hcl] at h
      | some r' =>
        have hr : r' = r := by simpa [ProduceEvent, hser, hcl] using h
        subst hr
        exact ⟨rfl, d, hser ▸ rfl, hcl, by simp [ProduceEvent, hser, hcl]⟩

/-- C4: If the caller's context is already cancelled when `ProduceEvent` is
invoked, it returns the cancellation error — a constructor distinct from the
production (send) error — and attempts no network send. -/
theorem C4_cancelled_before_send (serialize : Serializer) (client : Client)
    (topic : String) (event : Event) :
    (ProduceEvent serialize client topic true event).result = .error .cancelled ∧
    (ProduceEvent serialize client topic true event).sends = [] ∧
    ProduceError.cancelled ≠ ProduceError.sendFailed := by
  refine ⟨rfl, rfl, by decide⟩

/-- `validateEvent` accepts a (non-nil) event iff its type is non-empty, its
source is non-empty and its data document is non-nil. -/
theorem validateEvent_eq_none_iff (e : PbEvent) :
    validateEvent (some e) = none ↔
      e.type ≠ "" ∧ e.source ≠ "" ∧ e.data ≠ none := by
  constructor
  · intro h
    by_cases ht : e.type = "" <;> by_cases hs : e.source = "" <;>
      by_cases hd : e.data = none <;>
      simp [validateEvent, ht, hs, hd] at h ⊢
  · rintro ⟨ht, hs, hd⟩
    simp [validateEvent, ht, hs, hd]

/-- C6: `validateEvent` accepts an event iff its type is non-empty, its
source is non-empty and its data document is non-nil; when it rejects, the
reported violation names the offending field. (The embedding is a pure
function, so the check has no side effects.) -/
theorem C6_validator_iff (e : PbEvent) :
    (validateEvent (some e) = none ↔
      e.type ≠ "" ∧ e.source ≠ "" ∧ e.data ≠ none) ∧
    (validateEvent (some e) = none ∨
      validateEvent (some e) = some "event type is required" ∨
      validateEvent (some e) = some "event source is required" ∨
      validateEvent (some e) = some "event data is required") := by
  refine ⟨validateEvent_eq_none_iff e, ?_⟩
  by_cases ht : e.type = "" <;> by_cases hs : e.source = "" <;>
    by_cases hd : e.data = none <;>
    simp [validateEvent, ht, hs, hd]

/-- A concrete well-formed protobuf event, for witnesses. -/
def samplePbEvent : PbEvent :=
  { id := "e1"
    type := "user.created"
    source := "svc"
    tenantId := ""
    data := some [("k", "v")]
    timestamp := some 5
    schemaVersion := ""
    metadata := []
    correlationId := ""
    priority := 0 }

/-- A concrete protobuf event with an empty type, for witnesses and
counterexamples. -/
def badTypePbEvent : PbEvent :=
  { id := "e2"
    type := ""
    source := "svc"
    tenantId := ""
    data := some []
    timestamp := none
    schemaVersion := ""
    metadata := []
    correlationId := ""
    priority := 0 }

/-- Witness for C6 at concrete events: a fully-populated event is accepted,
an event with an empty type is rejected naming the type field. -/
theorem C6_validator_iff_witness :
    validateEvent (some samplePbEvent) = none ∧
    validateEvent (some badTypePbEvent) = some "event type is required" := by
  have h1 := (C6_validator_iff samplePbEvent).1.2
      ⟨by decide, by decide, by decide⟩
  exact ⟨h1, by decide⟩

/-- C8: every message `ProduceEvent` hands to the broker for an event has
key equal to the event's type (so two events of the same type carry the same
partition key), headers exactly `event_id`, `event_type`, `source` with the
event's values, and the event's own timestamp. -/
theorem C8_record_layout (serialize : Serializer) (client : Client)
    (topic : String) (ctxCancelled : Bool) (event : Event) (msg : ProducerMessage)
    (hmem : msg ∈ (ProduceEvent serialize client topic ctxCancelled event).sends) :
    msg.key = event.type ∧
    msg.headers =
      [ { key := "event_id", value := event.id }
      , { key := "event_type", value := event.type }
      , { key := "source", value := event.source } ] ∧
    msg.timestamp = event.timestamp ∧
    (∀ e' : Event, e'.type = event.type →
      ∀ msg' ∈ (ProduceEvent serialize client topic ctxCancelled e').sends,
        msg'.key = msg.key) := by
  have hform : ∀ (ev : Event) (m : ProducerMessage),
      m ∈ (ProduceEvent serialize client topic ctxCancelled ev).sends →
      ∃ d, m = mkProducerMessage topic ev d := by
    intro ev m hm
    unfold ProduceEvent at hm
    by_cases hc : ctxCancelled
    · simp [hc] at hm
    · simp only [hc, if_false] at hm
      cases hser : serialize ev with
      | none => simp [hser] at hm
      | some d =>
        simp only [hser] at hm
        cases hcl : client (mkProducerMessage topic ev d) with
        | none =>
          simp [hcl] at hm
          exact ⟨d, hm⟩
        | some r =>
          simp [hcl] at hm
          exact ⟨d, hm⟩
  obtain ⟨d, hd⟩ := hform event msg hmem
  subst hd
  refine ⟨rfl, rfl, rfl, ?_⟩
  intro e' hty msg' hmem'
  obtain ⟨d', hd'⟩ := hform e' msg' hmem'
  subst hd'
  simpa [mkProducerMessage] using hty

/-- A concrete internal event, for witnesses. -/
def sampleEvent : Event :=
  { id := "id-1"
    type := "user.created"
    source := "svc"
    subject := ""
    tenantId := ""
    data := some []
    timestamp := 42
    version := ""
    schemaVersion := ""
    metadata := none
    correlationId := ""
    priority := 0 }

/-- A serializer that always succeeds with a fixed payload, for witnesses. -/
def okSerializer : Serializer := fun _ => some "payload"

/-- A broker client that always assigns placement (3, 7), for witnesses. -/
def okClient : Client := fun _ => some { partition := 3, offset := 7 }

/-- Witness for C8: a concrete run whose single send carries the stated
key, headers and timestamp. -/
theorem C8_record_layout_witness :
    ∃ msg ∈ (ProduceEvent okSerializer okClient "events" false sampleEvent).sends,
      msg.key = sampleEvent.type ∧ msg.timestamp = 42 := by
  refine ⟨mkProducerMessage "events" sampleEvent "payload", ?_, ?_⟩
  · show mkProducerMessage "events" sampleEvent "payload" ∈
      (ProduceEvent okSerializer okClient "events" false sampleEvent).sends
    simp [ProduceEvent, okSerializer, okClient]
  · exact ⟨(C8_record_layout okSerializer okClient "events" false sampleEvent
      (mkProducerMessage "events" sampleEvent "payload")
      (by simp [ProduceEvent, okSerializer, okClient])).1, rfl⟩

/-- A concrete well-formed HTTP ingest request, for witnesses and
counterexamples. -/
def sampleEventRequest : EventRequest :=
  { type := "user.created"
    source := "svc"
    subject := ""
    data := some [("id", "1")]
    version := ""
    metadata := none }

/-- A broker client that assigns placement (0, 0) to every record. -/
def clientZero : Client := fun _ => some { partition := 0, offset := 0 }

/-- A broker client that assigns placement (5, 42) to every record. -/
def clientFive : Client := fun _ => some { partition := 5, offset := 42 }

/-- C1 counterexample: two successful HTTP single-event ingests of the same
request against logs that assign different placements — (0,0) in the first
run, (5,42) in the second — return the same response. The HTTP response
therefore cannot contain the placement assigned by the log: it carries only
the generated event id, a status, a timestamp and a message. -/
theorem C1_counterexample :
    (httpIngestEvent okSerializer clientZero "events" "r-1" "ip" "ua" "g-1" 42
        false (some sampleEventRequest)).1 =
      (httpIngestEvent okSerializer clientFive "events" "r-1" "ip" "ua" "g-1" 42
        false (some sampleEventRequest)).1 ∧
    (httpIngestEvent okSerializer clientZero "events" "r-1" "ip" "ua" "g-1" 42
        false (some sampleEventRequest)).1 =
      .accepted { eventId := "g-1", status := "accepted", timestamp := 42
                  message := "Event ingested successfully" } ∧
    ((httpIngestEvent okSerializer clientZero "events" "r-1" "ip" "ua" "g-1" 42
        false (some sampleEventRequest)).2.map clientZero) =
      [some { partition := 0, offset := 0 }] ∧
    ((httpIngestEvent okSerializer clientFive "events" "r-1" "ip" "ua" "g-1" 42
        false (some sampleEventRequest)).2.map clientFive) =
      [some { partition := 5, offset := 42 }] := by
  refine ⟨?_, ?_, ?_, ?_⟩ <;> rfl

/-- C1 (amended): a successful gRPC single-event ingest response carries the
event identifier (generated when the request had none) and exactly the
placement the log assigned to the single record sent; a successful HTTP
single-event ingest response carries the generated identifier, the
"accepted" status and the ingress timestamp — not the placement. -/
theorem C1_single_ingest_response :
    (∀ (serialize : Serializer) (client : Client) (topic requestId genId : String)
        (now : Nat) (cc : Bool) (e : PbEvent)
        (resp : IngestEventResponse) (msgs : List ProducerMessage),
        grpcIngestEvent serialize client topic requestId genId now cc e =
          (.ok resp, msgs) →
        resp.eventId = (if e.id = "" then genId else e.id) ∧
        resp.status = .accepted ∧
        ∃ m, msgs = [m] ∧
          client m = some { partition := resp.partition, offset := resp.offset }) ∧
    (∀ (serialize : Serializer) (client : Client)
        (topic requestId clientIP userAgent genId : String) (now : Nat)
        (cc : Bool) (body : Option EventRequest)
        (resp : EventResponse) (msgs : List ProducerMessage),
        httpIngestEvent serialize client topic requestId clientIP userAgent genId
          now cc body = (.accepted resp, msgs) →
        resp = { eventId := genId, status := "accepted", timestamp := now
                 message := "Event ingested successfully" }) := by
  constructor
  · intro serialize client topic requestId genId now cc e resp msgs h
    cases hval : validateEvent (some e) with
    | some err => simp [grpcIngestEvent, hval] at h
    | none =>
      simp only [grpcIngestEvent, hval] at h
      cases hres : (ProduceEvent serialize client topic cc
          (protoToModel now (grpcFillEvent genId now e))).result with
      | error pe => rw [hres] at h; simp at h
      | ok r =>
        rw [hres] at h
        simp only [Prod.mk.injEq] at h
        obtain ⟨h1, h2⟩ := h
        injection h1 with h1
        subst h1
        obtain ⟨_, d, _, hcl, hsends⟩ :=
          ProduceEvent_ok_elim serialize client topic cc
            (protoToModel now (grpcFillEvent genId now e)) r hres
        subst h2
        refine ⟨rfl, rfl, mkProducerMessage topic
          (protoToModel now (grpcFillEvent genId now e)) d, hsends, ?_⟩
        simpa using hcl
  · intro serialize client topic requestId clientIP userAgent genId now cc body
      resp msgs h
    cases body with
    | none => simp [httpIngestEvent] at h
    | some req =>
      cases hval : structValidateEventRequest req with
      | some details => simp [httpIngestEvent, hval] at h
      | none =>
        simp only [httpIngestEvent, hval] at h
        cases hsend : SendEvent serialize client topic
            (addRequestMetadata requestId clientIP userAgent
              (req.toEvent genId now)) with
        | mk errOpt sentMsgs =>
          rw [hsend] at h
          cases errOpt with
          | some pe => simp at h
          | none =>
            simp only [Prod.mk.injEq] at h
            obtain ⟨h1, _⟩ := h
            injection h1 with h1
            subst h1
            rfl

/-- Witness for C1 (amended): concrete successful runs on both surfaces. -/
theorem C1_single_ingest_response_witness :
    (({ eventId := "e1", requestId := "r-1", acceptedAt := some 42
        partition := 3, offset := 7, status := .accepted
        errorMessage := "" } : IngestEventResponse).eventId =
        (if samplePbEvent.id = "" then "g-1" else samplePbEvent.id) ∧
      ({ eventId := "e1", requestId := "r-1", acceptedAt := some 42
         partition := 3, offset := 7, status := .accepted
         errorMessage := "" } : IngestEventResponse).status = .accepted ∧
      ∃ m, [mkProducerMessage "events"
              (protoToModel 42 (grpcFillEvent "g-1" 42 samplePbEvent)) "payload"] = [m] ∧
        okClient m = some { partition := 3, offset := 7 }) ∧
    ({ eventId := "g-1", status := "accepted", timestamp := 42
       message := "Event ingested successfully" } : EventResponse) =
      { eventId := "g-1", status := "accepted", timestamp := 42
        message := "Event ingested successfully" } := by
  constructor
  · exact C1_single_ingest_response.1 okSerializer okClient "events" "r-1" "g-1"
      42 false samplePbEvent _ _ rfl
  · exact C1_single_ingest_response.2 okSerializer clientZero "events" "r-1" "ip"
      "ua" "g-1" 42 false (some sampleEventRequest) _
      (httpIngestEvent okSerializer clientZero "events" "r-1" "ip" "ua" "g-1" 42
        false (some sampleEventRequest)).2 rfl

/-- `SendEvent` never surfaces the cancellation error: it always runs the
producer under `context.Background()`. -/
theorem SendEvent_result_ne_cancelled (serialize : Serializer) (client : Client)
    (topic : String) (event : Event) :
    (SendEvent serialize client topic event).1 ≠ some .cancelled := by
  cases hser : serialize event with
  | none => simp [SendEvent, ProduceEvent, hser]
  | some d =>
    cases hcl : client (mkProducerMessage topic event d) with
    | none => simp [SendEvent, ProduceEvent, hser, hcl]
    | some r => simp [SendEvent, ProduceEvent, hser, hcl]

/-- `SendBatchEvents` never surfaces the cancellation error. -/
theorem SendBatchEvents_result_ne_cancelled (serialize : Serializer)
    (client : Client) (topic : String) (events : List Event) :
    (SendBatchEvents serialize client topic events).1 ≠ some .cancelled := by
  induction events with
  | nil => simp [SendBatchEvents]
  | cons e rest ih =>
    simp only [SendBatchEvents]
    cases hse : SendEvent serialize client topic e with
    | mk errOpt msgs =>
      cases errOpt with
      | some err =>
        have := SendEvent_result_ne_cancelled serialize client topic e
        rw [hse] at this
        simpa using this
      | none =>
        cases hrest : SendBatchEvents serialize client topic rest with
        | mk r more =>
          rw [hrest] at ih
          simpa using ih

/-- C10: the HTTP ingest path runs the producer under a fresh background
context: the handler's outcome is independent of the caller's request
context state, `SendEvent` and `SendBatchEvents` can never return the
cancellation error, and whenever serialization succeeds `SendEvent` does
attempt the network send. -/
theorem C10_http_background_context :
    (∀ (serialize : Serializer) (client : Client)
        (topic requestId clientIP userAgent genId : String) (now : Nat)
        (body : Option EventRequest),
        httpIngestEvent serialize client topic requestId clientIP userAgent genId
          now true body =
        httpIngestEvent serialize client topic requestId clientIP userAgent genId
          now false body) ∧
    (∀ (serialize : Serializer) (client : Client) (topic : String) (event : Event),
        (SendEvent serialize client topic event).1 ≠ some .cancelled ∧
        ∀ d, serialize event = some d →
          (SendEvent serialize client topic event).2 =
            [mkProducerMessage topic event d]) ∧
    (∀ (serialize : Serializer) (client : Client) (topic : String)
        (events : List Event),
        (SendBatchEvents serialize client topic events).1 ≠ some .cancelled) := by
  refine ⟨fun _ _ _ _ _ _ _ _ _ => rfl, ?_, ?_⟩
  · intro serialize client topic event
    refine ⟨SendEvent_result_ne_cancelled serialize client topic event, ?_⟩
    intro d hser
    cases hcl : client (mkProducerMessage topic event d) with
    | none => simp [SendEvent, ProduceEvent, hser, hcl]
    | some r => simp [SendEvent, ProduceEvent, hser, hcl]
  · intro serialize client topic events
    exact SendBatchEvents_result_ne_cancelled serialize client topic events

/-- A deterministic id generator for witnesses and counterexamples. -/
def genIds : Nat → String := fun i => "g-" ++ toString i

/-- Without fail-fast, the gRPC batch loop's result list is pointwise the
independent per-element outcome, in input order. -/
theorem grpcBatchStep_results_noFF (serialize : Serializer) (client : Client)
    (topic requestId : String) (genId : Nat → String) (now : Nat) (cc : Bool) :
    ∀ (i : Nat) (events : List PbEvent),
      (grpcBatchStep serialize client topic requestId genId now cc false i
        events).results =
      grpcElementOutcomes serialize client topic requestId genId now cc i events := by
  intro i events
  induction events generalizing i with
  | nil => rfl
  | cons e rest ih =>
    cases hval : validateEvent (some e) with
    | some err =>
      simp [grpcBatchStep, grpcElementOutcomes, grpcElementOutcome, hval, ih]
    | none =>
      cases hres : (ProduceEvent serialize client topic cc
          (protoToModel now (grpcFillEvent (genId i) now e))).result with
      | error pe =>
        simp [grpcBatchStep, grpcElementOutcomes, grpcElementOutcome, hval, hres, ih]
      | ok pr =>
        simp [grpcBatchStep, grpcElementOutcomes, grpcElementOutcome, hval, hres, ih]

/-- With fail-fast, the gRPC batch loop's result list is the independent
per-element outcomes of the prefix up to and including the first
non-accepted element. -/
theorem grpcBatchStep_results_FF (serialize : Serializer) (client : Client)
    (topic requestId : String) (genId : Nat → String) (now : Nat) (cc : Bool) :
    ∀ (i : Nat) (events : List PbEvent),
      (grpcBatchStep serialize client topic requestId genId now cc true i
        events).results =
      grpcElementOutcomesFF serialize client topic requestId genId now cc i events := by
  intro i events
  induction events generalizing i with
  | nil => rfl
  | cons e rest ih =>
    cases hval : validateEvent (some e) with
    | some err =>
      simp [grpcBatchStep, grpcElementOutcomesFF, grpcElementOutcome, hval, ih]
    | none =>
      cases hres : (ProduceEvent serialize client topic cc
          (protoToModel now (grpcFillEvent (genId i) now e))).result with
      | error pe =>
        simp [grpcBatchStep, grpcElementOutcomesFF, grpcElementOutcome, hval, hres, ih]
      | ok pr =>
        simp [grpcBatchStep, grpcElementOutcomesFF, grpcElementOutcome, hval, hres, ih]

/-- The independent per-element outcome list has one entry per input. -/
theorem grpcElementOutcomes_length (serialize : Serializer) (client : Client)
    (topic requestId : String) (genId : Nat → String) (now : Nat) (cc : Bool) :
    ∀ (i : Nat) (events : List PbEvent),
      (grpcElementOutcomes serialize client topic requestId genId now cc i
        events).length = events.length := by
  intro i events
  induction events generalizing i with
  | nil => rfl
  | cons e rest ih => simp [grpcElementOutcomes, ih]

/-- The HTTP batch loop's result list is pointwise the independent
per-element result, in input order. -/
theorem httpBatchStep_results (requestId clientIP userAgent : String)
    (genId : Nat → String) (now : Nat) :
    ∀ (i : Nat) (events : List EventRequest),
      (httpBatchStep requestId clientIP userAgent genId now i events).results =
        httpElementResults genId i events := by
  intro i events
  induction events generalizing i with
  | nil => rfl
  | cons r rest ih =>
    cases hval : structValidateEventRequest r with
    | some err =>
      simp [httpBatchStep, httpElementResults, httpElementResult, hval, ih]
    | none =>
      simp [httpBatchStep, httpElementResults, httpElementResult, hval, ih,
        addBatchIndexMetadata, addRequestMetadata, EventRequest.toEvent]

/-- The independent per-element HTTP result list has one entry per input. -/
theorem httpElementResults_length (genId : Nat → String) :
    ∀ (i : Nat) (events : List EventRequest),
      (httpElementResults genId i events).length = events.length := by
  intro i events
  induction events generalizing i with
  | nil => rfl
  | cons r rest ih => simp [httpElementResults, ih]

/-- When the HTTP batch handler answers 202 or 207, the response is built
from the per-element loop's accumulator. -/
theorem httpIngestBatch_ok_results (serialize : Serializer) (client : Client)
    (topic requestId clientIP userAgent : String) (genId : Nat → String)
    (now : Nat) (cc : Bool) (events : List EventRequest)
    (resp : BatchEventResponse) (msgs : List ProducerMessage)
    (h : httpIngestBatch serialize client topic requestId clientIP userAgent genId
        now cc (some events) = (.multiStatus resp, msgs) ∨
      httpIngestBatch serialize client topic requestId clientIP userAgent genId
        now cc (some events) = (.accepted resp, msgs)) :
    resp.results =
      (httpBatchStep requestId clientIP userAgent genId now 0 events).results := by
  cases hsv : structValidateBatchRequest events with
  | some details =>
    rcases h with h | h <;> simp [httpIngestBatch, hsv] at h
  | none =>
    rcases h with h | h <;>
    · simp only [httpIngestBatch, hsv] at h
      cases hsend : (if (httpBatchStep requestId clientIP userAgent genId now 0
            events).events.isEmpty then (none, [])
          else SendBatchEvents serialize client topic
            (httpBatchStep requestId clientIP userAgent genId now 0
              events).events) with
      | mk errOpt sent =>
        rw [hsend] at h
        cases errOpt with
        | some err => simp at h
        | none =>
          by_cases hf :
              (httpBatchStep requestId clientIP userAgent genId now 0
                events).failedCount > 0 <;>
            simp [hf] at h <;>
            (obtain ⟨h1, _⟩ := h; rw [h1.symm])

/-- C2 (amended): without fail-fast, a gRPC batch answer has exactly one
result entry per input element, and entry i is input element i's independent
outcome; an HTTP batch 202/207 answer likewise has one entry per input
element, entry i being element i's independent outcome. -/
theorem C2_batch_results_order :
    (∀ (serialize : Serializer) (client : Client) (topic requestId : String)
        (genId : Nat → String) (now : Nat) (cc : Bool) (events : List PbEvent)
        (resp : GrpcBatchResponse) (msgs : List ProducerMessage),
        grpcIngestEventBatch serialize client topic requestId genId now cc false
          events = (.ok resp, msgs) →
        resp.results.length = events.length ∧
        resp.results =
          grpcElementOutcomes serialize client topic requestId genId now cc
            0 events) ∧
    (∀ (serialize : Serializer) (client : Client)
        (topic requestId clientIP userAgent : String) (genId : Nat → String)
        (now : Nat) (cc : Bool) (events : List EventRequest)
        (resp : BatchEventResponse) (msgs : List ProducerMessage),
        (httpIngestBatch serialize client topic requestId clientIP userAgent genId
            now cc (some events) = (.multiStatus resp, msgs) ∨
          httpIngestBatch serialize client topic requestId clientIP userAgent genId
            now cc (some events) = (.accepted resp, msgs)) →
        resp.results.length = events.length ∧
        resp.results = httpElementResults genId 0 events) := by
  constructor
  · intro serialize client topic requestId genId now cc events resp msgs h
    cases hne : events.isEmpty with
    | true => simp [grpcIngestEventBatch, hne] at h
    | false =>
      simp only [grpcIngestEventBatch, hne, Bool.false_eq_true, if_false,
        Prod.mk.injEq] at h
      obtain ⟨h1, _⟩ := h
      injection h1 with h1
      rw [← h1]
      refine ⟨?_, ?_⟩
      · show (grpcBatchStep serialize client topic requestId genId now cc false
          0 events).results.length = events.length
        rw [grpcBatchStep_results_noFF]
        exact grpcElementOutcomes_length serialize client topic requestId genId
          now cc 0 events
      · exact grpcBatchStep_results_noFF serialize client topic requestId genId
          now cc 0 events
  · intro serialize client topic requestId clientIP userAgent genId now cc events
      resp msgs h
    have hr := httpIngestBatch_ok_results serialize client topic requestId
      clientIP userAgent genId now cc events resp msgs h
    rw [httpBatchStep_results] at hr
    refine ⟨?_, hr⟩
    rw [hr]
    exact httpElementResults_length genId 0 events

/-- C2 counterexample: a two-element gRPC batch whose first element fails
validation, submitted with the fail-fast flag set, returns a one-entry
result list — not one entry per input element. -/
theorem C2_counterexample :
    ((grpcIngestEventBatch okSerializer okClient "events" "r-1" genIds 42 false
        true [badTypePbEvent, samplePbEvent]).1.toOption.map
      (fun r => r.results.length)) = some 1 ∧
    [badTypePbEvent, samplePbEvent].length = 2 := ⟨rfl, rfl⟩

/-- The gRPC answer of a concrete one-element batch run, for witnesses. -/
def c2GrpcResp : GrpcBatchResponse :=
  (grpcIngestEventBatch okSerializer okClient "events" "r-1" genIds 42 false false
    [samplePbEvent]).1.toOption.getD ⟨[], 0, 0, ""⟩

/-- The HTTP answer of a concrete one-element batch run, for witnesses. -/
def c2HttpResp : BatchEventResponse :=
  match (httpIngestBatch okSerializer okClient "events" "r-1" "ip" "ua" genIds 42
      false (some [sampleEventRequest])).1 with
  | .multiStatus r => r
  | .accepted r => r
  | _ => ⟨0, 0, [], []⟩

/-- Witness for C2 (amended): concrete one-element batches on both surfaces
have a one-entry result list. -/
theorem C2_batch_results_order_witness :
    c2GrpcResp.results.length = 1 ∧ c2HttpResp.results.length = 1 := by
  have hg := (C2_batch_results_order.1 okSerializer okClient "events" "r-1" genIds
    42 false [samplePbEvent] c2GrpcResp
    (grpcIngestEventBatch okSerializer okClient "events" "r-1" genIds 42 false
      false [samplePbEvent]).2 (by rfl)).1
  have hh := (C2_batch_results_order.2 okSerializer okClient "events" "r-1" "ip"
    "ua" genIds 42 false [sampleEventRequest] c2HttpResp
    (httpIngestBatch okSerializer okClient "events" "r-1" "ip" "ua" genIds 42
      false (some [sampleEventRequest])).2 (Or.inr (by rfl))).1
  exact ⟨by simpa using hg, by simpa using hh⟩

/-- A concrete valid HTTP request of event type t1. -/
def reqType1 : EventRequest :=
  { type := "t1", source := "svc", subject := "", data := some []
    version := "", metadata := none }

/-- A concrete valid HTTP request of event type t2. -/
def reqType2 : EventRequest :=
  { type := "t2", source := "svc", subject := "", data := some []
    version := "", metadata := none }

/-- A concrete valid protobuf event of type t1. -/
def pbType1 : PbEvent :=
  { id := "a1", type := "t1", source := "svc", tenantId := ""
    data := some [], timestamp := some 1, schemaVersion := ""
    metadata := [], correlationId := "", priority := 0 }

/-- A concrete valid protobuf event of type t2. -/
def pbType2 : PbEvent :=
  { id := "a2", type := "t2", source := "svc", tenantId := ""
    data := some [], timestamp := some 1, schemaVersion := ""
    metadata := [], correlationId := "", priority := 0 }

/-- A broker client for which producing any record keyed t1 fails and
every other record succeeds at placement (0, 0). -/
def clientFailT1 : Client :=
  fun m => if m.key = "t1" then none else some { partition := 0, offset := 0 }

/-- A concrete internal event of type t1. -/
def evType1 : Event :=
  { id := "a1", type := "t1", source := "svc", subject := "", tenantId := ""
    data := some [], timestamp := 1, version := "", schemaVersion := ""
    metadata := none, correlationId := "", priority := 0 }

/-- A concrete internal event of type t2. -/
def evType2 : Event :=
  { id := "a2", type := "t2", source := "svc", subject := "", tenantId := ""
    data := some [], timestamp := 1, version := "", schemaVersion := ""
    metadata := none, correlationId := "", priority := 0 }

/-- C3 counterexample: the same two-element, both-valid batch — where
producing the first element fails and the second would succeed — against
both surfaces, with no fail-fast flag set. The HTTP batch endpoint aborts
on the first element's production failure: only the t1 record is attempted
and the whole batch is answered with a batch-level server error. The gRPC
batch endpoint isolates the failure: both records are attempted and the
second element is accepted. The two surfaces do not behave identically, and
on HTTP one element's production failure does abort its siblings. -/
theorem C3_counterexample :
    (httpIngestBatch okSerializer clientFailT1 "events" "r-1" "ip" "ua" genIds 42
        false (some [reqType1, reqType2])).1 =
      .serverError "ingestion_failed" "Failed to ingest batch events" ∧
    ((httpIngestBatch okSerializer clientFailT1 "events" "r-1" "ip" "ua" genIds 42
        false (some [reqType1, reqType2])).2.map (fun m => m.key)) = ["t1"] ∧
    ((grpcIngestEventBatch okSerializer clientFailT1 "events" "r-1" genIds 42
        false false [pbType1, pbType2]).1.toOption.map
      (fun r => r.results.map (fun x => x.status))) =
      some [.failed, .accepted] ∧
    ((grpcIngestEventBatch okSerializer clientFailT1 "events" "r-1" genIds 42
        false false [pbType1, pbType2]).2.map (fun m => m.key)) = ["t1", "t2"] := by
  refine ⟨rfl, rfl, rfl, rfl⟩

/-- C3 (amended): on the gRPC batch endpoint, one element's validation or
production failure never aborts sibling elements unless the fail-fast flag
is set, and with the flag set processing stops at the first failing element.
On the HTTP batch endpoint, an element's production failure aborts the whole
batch: `SendBatchEvents` stops at the first failing event without attempting
its successors, and the handler replaces the per-element results with a
batch-level server error; the HTTP endpoint has no fail-fast flag. -/
theorem C3_batch_partial_failure :
    (∀ (serialize : Serializer) (client : Client) (topic requestId : String)
        (genId : Nat → String) (now : Nat) (cc : Bool) (events : List PbEvent)
        (resp : GrpcBatchResponse) (msgs : List ProducerMessage),
        grpcIngestEventBatch serialize client topic requestId genId now cc false
          events = (.ok resp, msgs) →
        resp.results =
          grpcElementOutcomes serialize client topic requestId genId now cc
            0 events) ∧
    (∀ (serialize : Serializer) (client : Client) (topic requestId : String)
        (genId : Nat → String) (now : Nat) (cc : Bool) (events : List PbEvent)
        (resp : GrpcBatchResponse) (msgs : List ProducerMessage),
        grpcIngestEventBatch serialize client topic requestId genId now cc true
          events = (.ok resp, msgs) →
        resp.results =
          grpcElementOutcomesFF serialize client topic requestId genId now cc
            0 events) ∧
    (∀ (serialize : Serializer) (client : Client) (topic : String) (e : Event)
        (rest : List Event) (err : ProduceError) (msgs : List ProducerMessage),
        SendEvent serialize client topic e = (some err, msgs) →
        SendBatchEvents serialize client topic (e :: rest) = (some err, msgs)) ∧
    (∀ (serialize : Serializer) (client : Client)
        (topic requestId clientIP userAgent : String) (genId : Nat → String)
        (now : Nat) (cc : Bool) (events : List EventRequest)
        (err : ProduceError) (msgs : List ProducerMessage),
        structValidateBatchRequest events = none →
        SendBatchEvents serialize client topic
          (httpBatchStep requestId clientIP userAgent genId now 0 events).events =
          (some err, msgs) →
        httpIngestBatch serialize client topic requestId clientIP userAgent genId
          now cc (some events) =
          (.serverError "ingestion_failed" "Failed to ingest batch events",
           msgs)) := by
  refine ⟨?_, ?_, ?_, ?_⟩
  · intro serialize client topic requestId genId now cc events resp msgs h
    cases hne : events.isEmpty with
    | true => simp [grpcIngestEventBatch, hne] at h
    | false =>
      simp only [grpcIngestEventBatch, hne, Bool.false_eq_true, if_false,
        Prod.mk.injEq] at h
      obtain ⟨h1, _⟩ := h
      injection h1 with h1
      rw [← h1]
      exact grpcBatchStep_results_noFF serialize client topic requestId genId now
        cc 0 events
  · intro serialize client topic requestId genId now cc events resp msgs h
    cases hne : events.isEmpty with
    | true => simp [grpcIngestEventBatch, hne] at h
    | false =>
      simp only [grpcIngestEventBatch, hne, Bool.false_eq_true, if_false,
        Prod.mk.injEq] at h
      obtain ⟨h1, _⟩ := h
      injection h1 with h1
      rw [← h1]
      exact grpcBatchStep_results_FF serialize client topic requestId genId now
        cc 0 events
  · intro serialize client topic e rest err msgs h
    simp only [SendBatchEvents]
    rw [h]
  · intro serialize client topic requestId clientIP userAgent genId now cc events
      err msgs hsv hsend
    simp only [httpIngestBatch, hsv]
    cases hie : (httpBatchStep requestId clientIP userAgent genId now 0
        events).events.isEmpty with
    | true =>
      have hnil : (httpBatchStep requestId clientIP userAgent genId now 0
          events).events = [] := by
        simpa [List.isEmpty_iff] using hie
      rw [hnil] at hsend
      simp [SendBatchEvents] at hsend
    | false =>
      simp only [Bool.false_eq_true, if_false]
      rw [hsend]

/-- The gRPC answer of the concrete no-fail-fast mixed-failure batch run,
for witnesses. -/
def c3GrpcNoFFResp : GrpcBatchResponse :=
  (grpcIngestEventBatch okSerializer clientFailT1 "events" "r-1" genIds 42 false
    false [pbType1, pbType2]).1.toOption.getD ⟨[], 0, 0, ""⟩

/-- The gRPC answer of the concrete fail-fast mixed-failure batch run, for
witnesses. -/
def c3GrpcFFResp : GrpcBatchResponse :=
  (grpcIngestEventBatch okSerializer clientFailT1 "events" "r-1" genIds 42 false
    true [pbType1, pbType2]).1.toOption.getD ⟨[], 0, 0, ""⟩

/-- Witness for C3 (amended): the concrete mixed-failure batch — gRPC
results follow the independent per-element outcomes without fail-fast, the
fail-fast prefix with it; `SendBatchEvents` stops at the first production
failure; the HTTP handler answers the batch-level server error. -/
theorem C3_batch_partial_failure_witness :
    c3GrpcNoFFResp.results =
      grpcElementOutcomes okSerializer clientFailT1 "events" "r-1" genIds 42
        false 0 [pbType1, pbType2] ∧
    c3GrpcFFResp.results =
      grpcElementOutcomesFF okSerializer clientFailT1 "events" "r-1" genIds 42
        false 0 [pbType1, pbType2] ∧
    SendBatchEvents okSerializer clientFailT1 "events" [evType1, evType2] =
      (some .sendFailed,
       (SendEvent okSerializer clientFailT1 "events" evType1).2) ∧
    httpIngestBatch okSerializer clientFailT1 "events" "r-1" "ip" "ua" genIds 42
        false (some [reqType1, reqType2]) =
      (.serverError "ingestion_failed" "Failed to ingest batch events",
       (SendBatchEvents okSerializer clientFailT1 "events"
         (httpBatchStep "r-1" "ip" "ua" genIds 42 0
           [reqType1, reqType2]).events).2) := by
  refine ⟨?_, ?_, ?_, ?_⟩
  · exact C3_batch_partial_failure.1 okSerializer clientFailT1 "events" "r-1"
      genIds 42 false [pbType1, pbType2] c3GrpcNoFFResp
      (grpcIngestEventBatch okSerializer clientFailT1 "events" "r-1" genIds 42
        false false [pbType1, pbType2]).2 (by rfl)
  · exact C3_batch_partial_failure.2.1 okSerializer clientFailT1 "events" "r-1"
      genIds 42 false [pbType1, pbType2] c3GrpcFFResp
      (grpcIngestEventBatch okSerializer clientFailT1 "events" "r-1" genIds 42
        false true [pbType1, pbType2]).2 (by rfl)
  · exact C3_batch_partial_failure.2.2.1 okSerializer clientFailT1 "events"
      evType1 [evType2] .sendFailed
      (SendEvent okSerializer clientFailT1 "events" evType1).2 (by rfl)
  · exact C3_batch_partial_failure.2.2.2 okSerializer clientFailT1 "events" "r-1"
      "ip" "ua" genIds 42 false [reqType1, reqType2] .sendFailed
      (SendBatchEvents okSerializer clientFailT1 "events"
        (httpBatchStep "r-1" "ip" "ua" genIds 42 0
          [reqType1, reqType2]).events).2 (by rfl) (by rfl)

/-- Witness for C10: concrete runs — the HTTP handler gives the same answer
whether or not the request context is cancelled, and the producer attempts
the send. -/
theorem C10_http_background_context_witness :
    httpIngestEvent okSerializer okClient "events" "r-1" "ip" "ua" "g-1" 42 true
        (some sampleEventRequest) =
      httpIngestEvent okSerializer okClient "events" "r-1" "ip" "ua" "g-1" 42 false
        (some sampleEventRequest) ∧
    (SendEvent okSerializer okClient "events" sampleEvent).1 ≠ some .cancelled ∧
    (SendEvent okSerializer okClient "events" sampleEvent).2 =
      [mkProducerMessage "events" sampleEvent "payload"] ∧
    (SendBatchEvents okSerializer okClient "events" [sampleEvent]).1 ≠
      some .cancelled := by
  refine ⟨C10_http_background_context.1 okSerializer okClient "events" "r-1" "ip"
      "ua" "g-1" 42 (some sampleEventRequest),
    (C10_http_background_context.2.1 okSerializer okClient "events" sampleEvent).1,
    (C10_http_background_context.2.1 okSerializer okClient "events" sampleEvent).2
      "payload" rfl,
    C10_http_background_context.2.2 okSerializer okClient "events" [sampleEvent]⟩

/-- C5 counterexample: with the shared token bucket empty, an HTTP ingest
request is rejected with the rate-limit signal and nothing is produced — but
a gRPC ingest request with the same empty bucket is not rejected: a valid
event still reaches the producer (a record is sent), and an invalid event
still reaches the validator (the handler answers the validation error). The
gRPC request/response surface consumes no token. -/
theorem C5_counterexample :
    (httpServerPipeline okSerializer okClient "events" "r-1" "ip" "ua" genIds 42
        false ⟨0⟩ (.ingest (some sampleEventRequest))).1 =
      .rateLimited "rate_limit_exceeded" "Rate limit exceeded" ∧
    (httpServerPipeline okSerializer okClient "events" "r-1" "ip" "ua" genIds 42
        false ⟨0⟩ (.ingest (some sampleEventRequest))).2.2 = [] ∧
    ((grpcServerPipeline okSerializer okClient "events" "r-1" genIds 42 false ⟨0⟩
        (.ingest samplePbEvent)).2.2.map (fun m => m.key)) = ["user.created"] ∧
    (grpcServerPipeline okSerializer okClient "events" "r-1" genIds 42 false ⟨0⟩
        (.ingest badTypePbEvent)).1 =
      .ingest (.error { code := .invalidArgument
                        message := "event type is required" }) := by
  refine ⟨rfl, rfl, rfl, rfl⟩

/-- C5 (amended): on the HTTP surface every synchronous request consumes one
token from the shared bucket before any further processing — with no token
available the request is answered with the rate-limit signal immediately,
nothing is produced and the bucket is unchanged (no blocking, no queueing);
with a token available exactly one token is consumed and the request is not
rate-limited. The gRPC surface is not subject to the token bucket. -/
theorem C5_http_admission (serialize : Serializer) (client : Client)
    (topic requestId clientIP userAgent : String) (genId : Nat → String)
    (now : Nat) (cc : Bool) (bucket : TokenBucket) (req : HttpRequest) :
    (bucket.tokens = 0 →
      httpServerPipeline serialize client topic requestId clientIP userAgent genId
        now cc bucket req =
        (.rateLimited "rate_limit_exceeded" "Rate limit exceeded", bucket, [])) ∧
    (0 < bucket.tokens →
      (httpServerPipeline serialize client topic requestId clientIP userAgent
        genId now cc bucket req).2.1.tokens = bucket.tokens - 1 ∧
      (httpServerPipeline serialize client topic requestId clientIP userAgent
        genId now cc bucket req).1 ≠
        .rateLimited "rate_limit_exceeded" "Rate limit exceeded") := by
  constructor
  · intro h0
    have hb : allowRequest bucket = (false, bucket) := by
      simp [allowRequest, h0]
    simp [httpServerPipeline, hb]
  · intro hpos
    have hne : bucket.tokens ≠ 0 := Nat.pos_iff_ne_zero.mp hpos
    have hb : allowRequest bucket = (true, { tokens := bucket.tokens - 1 }) := by
      simp [allowRequest, hne]
    cases req <;> simp [httpServerPipeline, hb]

/-- Witness for C5 (amended): an empty bucket rejects a concrete request
untouched; a bucket of two tokens admits it and is left with one. -/
theorem C5_http_admission_witness :
    httpServerPipeline okSerializer okClient "events" "r-1" "ip" "ua" genIds 42
        false ⟨0⟩ (.validate (some sampleEventRequest)) =
      (.rateLimited "rate_limit_exceeded" "Rate limit exceeded", ⟨0⟩, []) ∧
    (httpServerPipeline okSerializer okClient "events" "r-1" "ip" "ua" genIds 42
        false ⟨2⟩ (.validate (some sampleEventRequest))).2.1.tokens = 1 := by
  refine ⟨(C5_http_admission okSerializer okClient "events" "r-1" "ip" "ua" genIds
      42 false ⟨0⟩ (.validate (some sampleEventRequest))).1 rfl, ?_⟩
  have h := ((C5_http_admission okSerializer okClient "events" "r-1" "ip" "ua"
      genIds 42 false ⟨2⟩ (.validate (some sampleEventRequest))).2 (by decide)).1
  simpa using h

/-- The concrete valid protobuf event with no identifier yet, for the C7
counterexample: its would-be identifier must be generated. -/
def samplePbEventNoId : PbEvent := { samplePbEvent with id := "" }

/-- C7 counterexample: a valid event submitted to the gRPC dry-run
validation endpoint is answered with valid = true, but the answer is exactly
the record ⟨true, no violations, the request id⟩ — the response type has no
event-identifier field and no identifier is generated: in this run's
environment the would-be assigned identifier is the generator's output
"g-0", which occurs nowhere in the response. -/
theorem C7_counterexample :
    (grpcValidateEvent "req-1" samplePbEventNoId).isValid = true ∧
    grpcValidateEvent "req-1" samplePbEventNoId =
      { isValid := true, errors := [], requestId := "req-1" } ∧
    validateRespMentions (grpcValidateEvent "req-1" samplePbEventNoId)
      (genIds 0) = false := by
  refine ⟨rfl, rfl, rfl⟩

/-- C7 (amended): dry-run validation never invokes the producer — for every
input, on both surfaces, no record is sent; the HTTP surface answers valid
inputs with valid = true plus the identifier and timestamp that would have
been assigned, and invalid inputs with the violation detail; the gRPC
surface answers with the validity flag and field-level violations (valid iff
the validator accepts), with no would-be identifier. -/
theorem C7_dry_run_frame :
    (∀ (serialize : Serializer) (client : Client)
        (topic requestId clientIP userAgent : String) (genId : Nat → String)
        (now : Nat) (cc : Bool) (bucket : TokenBucket) (body : Option EventRequest),
        (httpServerPipeline serialize client topic requestId clientIP userAgent
          genId now cc bucket (.validate body)).2.2 = []) ∧
    (∀ (serialize : Serializer) (client : Client) (topic requestId : String)
        (genId : Nat → String) (now : Nat) (cc : Bool) (bucket : TokenBucket)
        (e : PbEvent),
        (grpcServerPipeline serialize client topic requestId genId now cc bucket
          (.validate e)).2.2 = []) ∧
    (∀ (genId : String) (now : Nat) (req : EventRequest),
        structValidateEventRequest req = none →
        httpValidateEvent genId now (some req) = .valid genId now) ∧
    (∀ (genId : String) (now : Nat) (req : EventRequest) (details : String),
        structValidateEventRequest req = some details →
        httpValidateEvent genId now (some req) = .invalid details) ∧
    (∀ (requestId : String) (e : PbEvent),
        (grpcValidateEvent requestId e).isValid = true ↔
          validateEvent (some e) = none) := by
  refine ⟨?_, ?_, ?_, ?_, ?_⟩
  · intro serialize client topic requestId clientIP userAgent genId now cc bucket
      body
    cases hb : allowRequest bucket with
    | mk ok b => cases ok <;> simp [httpServerPipeline, hb]
  · intro serialize client topic requestId genId now cc bucket e
    rfl
  · intro genId now req h
    simp [httpValidateEvent, h, EventRequest.toEvent]
  · intro genId now req details h
    simp [httpValidateEvent, h]
  · intro requestId e
    cases hval : validateEvent (some e) with
    | some m => simp [grpcValidateEvent, hval]
    | none =>
      obtain ⟨ht, hs, _⟩ := (validateEvent_eq_none_iff e).1 hval
      simp [grpcValidateEvent, hval, ht, hs]

/-- Witness for C7 (amended): concrete dry-run requests on both surfaces
produce nothing; a concrete valid request is answered with the would-be id
on HTTP and valid = true on gRPC; a concrete invalid one with the violation. -/
theorem C7_dry_run_frame_witness :
    (httpServerPipeline okSerializer okClient "events" "r-1" "ip" "ua" genIds 42
      false ⟨5⟩ (.validate (some sampleEventRequest))).2.2 = [] ∧
    (grpcServerPipeline okSerializer okClient "events" "r-1" genIds 42 false ⟨5⟩
      (.validate samplePbEvent)).2.2 = [] ∧
    httpValidateEvent "g-0" 42 (some sampleEventRequest) = .valid "g-0" 42 ∧
    httpValidateEvent "g-0" 42 (some { sampleEventRequest with type := "" }) =
      .invalid "Field 'Type' failed validation: required" ∧
    ((grpcValidateEvent "r-1" samplePbEvent).isValid = true ↔
      validateEvent (some samplePbEvent) = none) := by
  refine ⟨C7_dry_run_frame.1 okSerializer okClient "events" "r-1" "ip" "ua" genIds
      42 false ⟨5⟩ (some sampleEventRequest),
    C7_dry_run_frame.2.1 okSerializer okClient "events" "r-1" genIds 42 false ⟨5⟩
      samplePbEvent,
    C7_dry_run_frame.2.2.1 "g-0" 42 sampleEventRequest rfl,
    C7_dry_run_frame.2.2.2.1 "g-0" 42 { sampleEventRequest with type := "" }
      "Field 'Type' failed validation: required" rfl,
    C7_dry_run_frame.2.2.2.2 "r-1" samplePbEvent⟩

/-- C9: a streaming session never ends because one event message fails
validation or production — over any input trace whose messages all arrive
and whose sends all succeed, the loop stays live (termination `pending`,
i.e. it is still waiting to receive) and answers every event and ping
message, failures included; and an event whose handling fails elicits a
status message describing the error after which the loop continues exactly
as it would on the rest of the trace. Termination arises only from the
non-message inputs — context firing, end-of-stream, receive error — or a
failed send. -/
theorem C9_stream_failure_isolation :
    (∀ (serialize : Serializer) (client : Client) (topic requestId : String)
        (genId : Nat → String) (now : Nat) (i : Nat) (trace : List LoopInput),
        trace.all liveInput = true →
        (streamRun serialize client topic requestId genId now i trace).term =
          .pending ∧
        (streamRun serialize client topic requestId genId now i trace).outs.length =
          expectedResponses trace) ∧
    (∀ (serialize : Serializer) (client : Client) (topic requestId : String)
        (genId : Nat → String) (now : Nat) (i : Nat) (e : PbEvent) (err : String)
        (rest : List LoopInput),
        (handleStreamEvent serialize client topic requestId (genId i) now e).1 =
          .error err →
        streamRun serialize client topic requestId genId now i
            (.recvMsg (.event e) true :: rest) =
          ⟨.statusErr err ::
            (streamRun serialize client topic requestId genId now (i + 1) rest).outs,
           (streamRun serialize client topic requestId genId now (i + 1) rest).term,
           (handleStreamEvent serialize client topic requestId (genId i) now e).2 ++
            (streamRun serialize client topic requestId genId now (i + 1)
              rest).sends⟩) := by
  constructor
  · intro serialize client topic requestId genId now i trace
    induction trace generalizing i with
    | nil => intro _; exact ⟨rfl, rfl⟩
    | cons inp rest ih =>
      intro h
      simp only [List.all_cons, Bool.and_eq_true] at h
      obtain ⟨hinp, hrest⟩ := h
      cases inp with
      | ctxDone => simp [liveInput] at hinp
      | recvEOF => simp [liveInput] at hinp
      | recvError => simp [liveInput] at hinp
      | recvMsg m sendOk =>
        cases sendOk with
        | false => simp [liveInput] at hinp
        | true =>
          cases m with
          | event e =>
            cases hh : handleStreamEvent serialize client topic requestId
                (genId i) now e with
            | mk res ms =>
              cases res with
              | error err =>
                simp [streamRun, hh, expectedResponses, (ih (i + 1) hrest).1,
                  (ih (i + 1) hrest).2]
              | ok resp =>
                simp [streamRun, hh, expectedResponses, (ih (i + 1) hrest).1,
                  (ih (i + 1) hrest).2]
          | ping =>
            simp [streamRun, expectedResponses, (ih (i + 1) hrest).1,
              (ih (i + 1) hrest).2]
          | config a b =>
            simp [streamRun, expectedResponses, (ih (i + 1) hrest).1,
              (ih (i + 1) hrest).2]
  · intro serialize client topic requestId genId now i e err rest h
    cases hh : handleStreamEvent serialize client topic requestId (genId i) now e
        with
    | mk res ms =>
      rw [hh] at h
      cases res with
      | ok resp => simp at h
      | error err' =>
        have herr : err' = err := by simpa using h
        subst herr
        simp [streamRun, hh]

/-- A concrete live trace: an invalid event message, a ping, a session
configuration message. -/
def c9Trace : List LoopInput :=
  [.recvMsg (.event badTypePbEvent) true, .recvMsg .ping true,
   .recvMsg (.config true 10) true]

/-- Witness for C9: the concrete trace keeps the session live with one
response per event/ping message, and the invalid event elicits a status
message naming the violation while the loop goes on. -/
theorem C9_stream_failure_isolation_witness :
    (streamRun okSerializer okClient "events" "r-1" genIds 42 0 c9Trace).term =
      .pending ∧
    (streamRun okSerializer okClient "events" "r-1" genIds 42 0 c9Trace).outs.length =
      expectedResponses c9Trace ∧
    streamRun okSerializer okClient "events" "r-1" genIds 42 0
        [.recvMsg (.event badTypePbEvent) true] =
      ⟨[.statusErr "event type is required"], .pending, []⟩ := by
  refine ⟨(C9_stream_failure_isolation.1 okSerializer okClient "events" "r-1"
      genIds 42 0 c9Trace rfl).1,
    (C9_stream_failure_isolation.1 okSerializer okClient "events" "r-1" genIds 42
      0 c9Trace rfl).2, ?_⟩
  have h := C9_stream_failure_isolation.2 okSerializer okClient "events" "r-1"
    genIds 42 0 badTypePbEvent "event type is required" [] (by rfl)
  rw [h]
  rfl

end EventGateway
